import Mathlib

/-!
Lean model of the woflang core interpreter
(`src/cpp-v10.1.1/src/core/woflang.hpp` / `woflang.cpp`), together with
theorems settling the specification's claims about it.

Modelling conventions:
* C++ `double` is modelled as an exact rational (`ℚ`).  IEEE rounding,
  overflow, infinities and NaN are not modelled; every numeric value that
  appears in a claim below is small enough to be exactly representable,
  so the abstraction is faithful on the claimed behaviours.
* C++ `std::int64_t` payloads are modelled as unbounded `Int`; the one
  place where the 64-bit range is observable through the claimed API
  (`std::stoll` raising `std::out_of_range` in `dispatch_token`) is
  modelled explicitly with the `int64Min`/`int64Max` bounds.
* Exceptions are modelled by value: a stateful operation returns the
  (possibly partially) mutated state together with `Option WofErr`,
  mirroring that a C++ `throw` happens after any in-place mutations that
  preceded it.  A `WofErr` carries the `what()` message of the thrown
  `std::runtime_error`.
* The interpreter's operand stack (`std::vector<WofValue>`, `push_back`
  at the end, `back()` is top) is modelled as a `List WofValue` whose
  HEAD is the top of the stack.
-/

namespace Woflang

/-- Unit metadata (`struct Unit` in woflang.hpp): `{name, scale}`.
The C++ `scale` is a `double`, modelled as `ℚ`. -/
structure UnitInfo where
  name : String
  scale : ℚ
deriving DecidableEq

/-- `enum class WofType` from woflang.hpp, all six enumerators. -/
inductive WofType where
  | Unknown
  | Integer
  | Double
  | Bool
  | String
  | Symbol
deriving DecidableEq

/-- The `Storage` variant of `WofValue`:
`std::variant<std::monostate, std::int64_t, double, bool, std::string>`.
String and Symbol values share the single string alternative. -/
inductive WofStorage where
  | monostate
  | ofInt (v : Int)
  | ofDouble (v : ℚ)
  | ofBool (v : Bool)
  | ofString (v : String)
deriving DecidableEq

/-- `class WofValue`: a type tag, the variant storage, and an optional
shared unit tag.  Defaults mirror the C++ member initializers. -/
structure WofValue where
  type : WofType := WofType.Unknown
  value : WofStorage := WofStorage.monostate
  unit : Option UnitInfo := none
deriving DecidableEq

/-- `std::get<std::int64_t>` on the storage.  For values honouring the
kind/payload invariant the requested alternative is always the active
one; the fallback (where C++ would raise `bad_variant_access`) returns a
fixed default and is never reached below on well-formed values. -/
def WofStorage.getInt : WofStorage → Int
  | .ofInt v => v
  | _ => 0

/-- `std::get<double>` on the storage (same convention as `getInt`). -/
def WofStorage.getDouble : WofStorage → ℚ
  | .ofDouble v => v
  | _ => 0

/-- `std::get<std::string>` on the storage (same convention as `getInt`). -/
def WofStorage.getString : WofStorage → String
  | .ofString v => v
  | _ => ""

/-- The data-model invariant (spec §3): the storage's active alternative
matches the type tag.  Every value built by the factories or by
`dispatch_token` satisfies it. -/
def WofValue.wf (v : WofValue) : Bool :=
  match v.type, v.value with
  | WofType.Unknown, WofStorage.monostate => true
  | WofType.Integer, WofStorage.ofInt _ => true
  | WofType.Double, WofStorage.ofDouble _ => true
  | WofType.Bool, WofStorage.ofBool _ => true
  | WofType.String, WofStorage.ofString _ => true
  | WofType.Symbol, WofStorage.ofString _ => true
  | _, _ => false

/-- `WofValue::make_int` (woflang.cpp). -/
def WofValue.make_int (v : Int) : WofValue :=
  ⟨WofType.Integer, WofStorage.ofInt v, none⟩

/-- `WofValue::make_double` (woflang.cpp). -/
def WofValue.make_double (v : ℚ) : WofValue :=
  ⟨WofType.Double, WofStorage.ofDouble v, none⟩

/-- `WofValue::make_string` (woflang.cpp). -/
def WofValue.make_string (s : String) : WofValue :=
  ⟨WofType.String, WofStorage.ofString s, none⟩

/-- `WofValue::make_symbol` (woflang.cpp). -/
def WofValue.make_symbol (s : String) : WofValue :=
  ⟨WofType.Symbol, WofStorage.ofString s, none⟩

/-- The unit-tag comparison at the top of `WofValue::operator==`:
both tagged and name/scale equal, or both untagged; otherwise unequal. -/
def unit_tags_match : Option UnitInfo → Option UnitInfo → Bool
  | some u, some w => decide (u.name = w.name) && decide (u.scale = w.scale)
  | none, none => true
  | _, _ => false

/-- `WofValue::operator==` (woflang.cpp lines 46-70).  Type tags must
match, unit tags must match, then the payload is compared per kind.
The C++ switch lists no `Bool` case, so control falls through to the
trailing `return false`: two Bool values never compare equal. -/
def WofValue.eq (a b : WofValue) : Bool :=
  if a.type ≠ b.type then false
  else if !unit_tags_match a.unit b.unit then false
  else
    match a.type with
    | WofType.Unknown => true
    | WofType.Integer => decide (a.value.getInt = b.value.getInt)
    | WofType.Double => decide (a.value.getDouble = b.value.getDouble)
    | WofType.String => decide (a.value.getString = b.value.getString)
    | WofType.Symbol => decide (a.value.getString = b.value.getString)
    | WofType.Bool => false

/-- Display rendering of a Double, `oss << double` in C++.  The exact
ostream numeral rendering is not modelled bit-for-bit; a canonical
rational rendering stands in.  No claim below depends on how a Double
renders. -/
def doubleToDisplay (q : ℚ) : String := toString q

/-- `WofValue::to_string` (woflang.cpp lines 72-89).  The switch lists no
`Bool` case, so control falls through to the trailing
`return "<invalid>"`. -/
def WofValue.to_string (v : WofValue) : String :=
  match v.type with
  | WofType.Unknown => "<unknown>"
  | WofType.Integer => toString v.value.getInt
  | WofType.Double => doubleToDisplay v.value.getDouble
  | WofType.String => "\"" ++ v.value.getString ++ "\""
  | WofType.Symbol => v.value.getString
  | WofType.Bool => "<invalid>"

/-- `WofValue::is_numeric` (woflang.cpp lines 91-93). -/
def WofValue.is_numeric (v : WofValue) : Bool :=
  decide (v.type = WofType.Integer) || decide (v.type = WofType.Double)

/-- `WofValue::as_numeric` (woflang.cpp lines 95-109).  The switch lists
no `Bool` case, so control falls through to the trailing
`return 0.0`. -/
def WofValue.as_numeric (v : WofValue) : ℚ :=
  match v.type with
  | WofType.Integer => (v.value.getInt : ℚ)
  | WofType.Double => v.value.getDouble
  | WofType.String => 0
  | WofType.Symbol => 0
  | WofType.Unknown => 0
  | WofType.Bool => 0

/-- Truncation toward zero, the semantics of C++
`static_cast<std::int64_t>(double)` (for in-range arguments).  On the
reduced fraction `num/den` (with `den > 0`) T-division by the
denominator truncates toward zero. -/
def truncQ (q : ℚ) : Int := Int.tdiv q.num q.den

/-- C-locale `isspace`, used by both `simple_tokenize` and `strtod`. -/
def isSpaceC (c : Char) : Bool :=
  c == ' ' || c == '\t' || c == '\n' || c == '\x0b' || c == '\x0c' || c == '\r'

/-- C-locale hexadecimal digit. -/
def isHexDigitC (c : Char) : Bool :=
  c.isDigit || (decide ('a' ≤ c) && decide (c ≤ 'f')) ||
    (decide ('A' ≤ c) && decide (c ≤ 'F'))

/-- `is_integer` (woflang.cpp lines 124-141): optional single sign
followed by one or more decimal digits, nothing else.  The C++ loop runs
over bytes and `isdigit` only accepts ASCII digits, so the byte-level and
char-level readings agree. -/
def is_integer (token : String) : Bool :=
  match token.data with
  | [] => false
  | c :: cs =>
    let digitsPart := if c == '-' || c == '+' then cs else c :: cs
    !digitsPart.isEmpty && digitsPart.all Char.isDigit

/-- An optionally signed non-empty digit string — the exponent tail of a
`strtod` decimal or hexadecimal form. -/
def expDigits (cs : List Char) : Bool :=
  let cs' :=
    match cs with
    | c :: t => if c == '+' || c == '-' then t else cs
    | [] => cs
  !cs'.isEmpty && cs'.all Char.isDigit

/-- Rest-of-token check after the mantissa of a decimal form: either
nothing, or a complete `(e|E)(+|-)?digits` exponent. -/
def expFull : List Char → Bool
  | [] => true
  | c :: t => (c == 'e' || c == 'E') && expDigits t

/-- Rest-of-token check after the mantissa of a hexadecimal form: either
nothing, or a complete `(p|P)(+|-)?digits` binary exponent. -/
def pExpFull : List Char → Bool
  | [] => true
  | c :: t => (c == 'p' || c == 'P') && expDigits t

/-- Complete decimal floating form: `digits [. digits] [exp]` or
`. digits [exp]`, with at least one digit in the mantissa. -/
def decFull (cs : List Char) : Bool :=
  let intPart := cs.takeWhile Char.isDigit
  let rest1 := cs.dropWhile Char.isDigit
  match rest1 with
  | '.' :: rest2 =>
    let fracPart := rest2.takeWhile Char.isDigit
    let rest3 := rest2.dropWhile Char.isDigit
    (!intPart.isEmpty || !fracPart.isEmpty) && expFull rest3
  | _ => !intPart.isEmpty && expFull rest1

/-- Complete hexadecimal floating tail (what follows `0x`/`0X`):
hex digits with an optional point, at least one hex digit in the
mantissa, and an optional binary exponent. -/
def hexTail (cs : List Char) : Bool :=
  let intPart := cs.takeWhile isHexDigitC
  let rest1 := cs.dropWhile isHexDigitC
  match rest1 with
  | '.' :: rest2 =>
    let fracPart := rest2.takeWhile isHexDigitC
    let rest3 := rest2.dropWhile isHexDigitC
    (!intPart.isEmpty || !fracPart.isEmpty) && pExpFull rest3
  | _ => !intPart.isEmpty && pExpFull rest1

/-- Tail of a complete `nan(n-char-sequence)` form: alphanumerics and
underscores closed by a final `)`. -/
def nanSeqClose : List Char → Bool
  | [] => false
  | [c] => c == ')'
  | c :: t => (c.isAlphanum || c == '_') && nanSeqClose t

/-- Complete (already lower-cased) `nan` or `nan(n-char-sequence)`. -/
def nanFull (lower : List Char) : Bool :=
  match lower with
  | 'n' :: 'a' :: 'n' :: rest =>
    match rest with
    | [] => true
    | '(' :: t => nanSeqClose t
    | _ => false
  | _ => false

/-- The subject of a `strtod` conversion after whitespace and sign:
infinity, NaN, a hexadecimal form, or a decimal form — matched against
the WHOLE remaining input.  `strtod` consumes the longest valid prefix;
`endptr == end` (which is what `is_number` tests) holds exactly when the
whole remainder is one complete form. -/
def bodyFull (cs : List Char) : Bool :=
  let lower := cs.map Char.toLower
  if lower == ['i', 'n', 'f'] || lower == ['i', 'n', 'f', 'i', 'n', 'i', 't', 'y'] then
    true
  else if nanFull lower then true
  else
    match cs with
    | '0' :: x :: rest => if x == 'x' || x == 'X' then hexTail rest else decFull cs
    | _ => decFull cs

/-- Whether C `strtod` consumes the entire character list: optional
whitespace, optional sign, then one complete floating subject. -/
def strtodFull (cs : List Char) : Bool :=
  let cs1 := cs.dropWhile isSpaceC
  let cs2 :=
    match cs1 with
    | c :: t => if c == '+' || c == '-' then t else cs1
    | [] => cs1
  bodyFull cs2

/-- `is_number` (woflang.cpp lines 115-122): non-empty and `strtod`
consumes every character of the token. -/
def is_number (token : String) : Bool :=
  !token.isEmpty && strtodFull token.data

/-- Value of an unsigned decimal digit string. -/
def digitsToNat (cs : List Char) : Nat :=
  cs.foldl (fun acc c => acc * 10 + (c.toNat - 48)) 0

/-- `std::stoll` on a token already validated by `is_integer`: optional
sign, then decimal digits, read as an unbounded integer.  (The 64-bit
range check that makes `stoll` raise `std::out_of_range` is applied at
the call site in `dispatch_token`.) -/
def parse_ll (token : String) : Int :=
  match token.data with
  | '-' :: cs => -(digitsToNat cs : Int)
  | '+' :: cs => (digitsToNat cs : Int)
  | cs => (digitsToNat cs : Int)

/-- Smallest `std::int64_t`. -/
def int64Min : Int := -(2 ^ 63)

/-- Largest `std::int64_t`. -/
def int64Max : Int := 2 ^ 63 - 1

/-- Signed exponent tail value of a decimal form (`0` when absent). -/
def expVal : List Char → Int
  | c :: t =>
    if c == 'e' || c == 'E' then
      match t with
      | '-' :: d => -(digitsToNat d : Int)
      | '+' :: d => (digitsToNat d : Int)
      | d => (digitsToNat d : Int)
    else 0
  | [] => 0

/-- Exact value of an unsigned decimal floating form
`intPart . fracPart exp`. -/
def decValue (intPart fracPart expRest : List Char) : ℚ :=
  ((digitsToNat (intPart ++ fracPart) : ℚ) / (10 : ℚ) ^ fracPart.length) *
    (10 : ℚ) ^ expVal expRest

/-- Unsigned magnitude of a `std::stod` conversion for decimal forms.
Hexadecimal, infinity and NaN inputs pass `is_number` but their IEEE
values have no rational counterpart; they evaluate to `0` here.  No
claim below ever dispatches such a token, nor depends on the value
produced by the Double literal branch at all. -/
def stodMag (cs : List Char) : ℚ :=
  let intPart := cs.takeWhile Char.isDigit
  let rest1 := cs.dropWhile Char.isDigit
  match rest1 with
  | '.' :: rest2 =>
    let fracPart := rest2.takeWhile Char.isDigit
    let rest3 := rest2.dropWhile Char.isDigit
    decValue intPart fracPart rest3
  | _ => decValue intPart [] rest1

/-- `std::stod` on a token already validated by `is_number`: skip
whitespace, apply the sign, convert the magnitude. -/
def parse_stod (token : String) : ℚ :=
  match token.data.dropWhile isSpaceC with
  | '-' :: t => -(stodMag t)
  | '+' :: t => stodMag t
  | t => stodMag t

/-- An interpreter error: the `what()` message of the thrown
`std::runtime_error` (e.g. `"Division by zero"` is the spec's
`DivisionByZero`, `"Stack underflow in pop()"` its `StackUnderflow`). -/
structure WofErr where
  msg : String
deriving DecidableEq

/-- An operation callback (`WofOpHandler`).  The C++ handler receives
the whole interpreter; every core operation — and the spec's sanctioned
callback contract (§6) — interacts only through stack effects, so a
handler is modelled as a stack transformer returning the (possibly
partially) mutated stack together with an optionally raised error. -/
abbrev WofOp : Type := List WofValue → List WofValue × Option WofErr

/-- `class WoflangInterpreter`: the operand stack (list head = top of
stack) and the operation registry (`std::unordered_map` lookup modelled
as a function). -/
structure WoflangInterpreter where
  stack : List WofValue
  ops : String → Option WofOp

/-- `WoflangInterpreter::stack_has`. -/
def stack_has (st : List WofValue) (n : Nat) : Bool :=
  decide (n ≤ st.length)

/-- The `"+"` built-in from the WoflangInterpreter constructor
(woflang.cpp lines 188-203): pop `b` then `a`; if both are numeric push
the Double sum, otherwise push the String concatenation of their display
strings. -/
def op_add : WofOp := fun st =>
  match st with
  | b :: a :: rest =>
    if a.is_numeric && b.is_numeric then
      (WofValue.make_double (a.as_numeric + b.as_numeric) :: rest, none)
    else
      (WofValue.make_string (a.to_string ++ b.to_string) :: rest, none)
  | _ => (st, some ⟨"Stack underflow for +"⟩)

/-- The `"-"` built-in (woflang.cpp lines 205-213): unconditional
numeric coercion, Double result. -/
def op_sub : WofOp := fun st =>
  match st with
  | b :: a :: rest =>
    (WofValue.make_double (a.as_numeric - b.as_numeric) :: rest, none)
  | _ => (st, some ⟨"Stack underflow for -"⟩)

/-- The `"*"` built-in (woflang.cpp lines 215-223). -/
def op_mul : WofOp := fun st =>
  match st with
  | b :: a :: rest =>
    (WofValue.make_double (a.as_numeric * b.as_numeric) :: rest, none)
  | _ => (st, some ⟨"Stack underflow for *"⟩)

/-- The `"/"` built-in (woflang.cpp lines 225-237): BOTH operands are
popped before the divisor is tested, so on a zero divisor the throw
leaves the stack with the operands already removed. -/
def op_div : WofOp := fun st =>
  match st with
  | b :: a :: rest =>
    let denom := b.as_numeric
    if denom = 0 then (rest, some ⟨"Division by zero"⟩)
    else (WofValue.make_double (a.as_numeric / denom) :: rest, none)
  | _ => (st, some ⟨"Stack underflow for /"⟩)

/-- The `".s"` built-in: `print_stack()` writes to the console and
leaves the stack untouched; console output is outside the model. -/
def op_show_stack : WofOp := fun st => (st, none)

/-- `WoflangInterpreter::register_op`: `ops[name] = handler`,
insert-or-replace. -/
def register_op (ops : String → Option WofOp) (name : String) (h : WofOp) :
    String → Option WofOp :=
  fun n => if n = name then some h else ops n

/-- The empty registry. -/
def empty_ops : String → Option WofOp := fun _ => none

/-- The registry installed by the `WoflangInterpreter` constructor:
`+`, `-`, `*`, `/` and `.s`. -/
def default_ops : String → Option WofOp :=
  register_op
    (register_op
      (register_op (register_op (register_op empty_ops "+" op_add) "-" op_sub)
        "*" op_mul)
      "/" op_div)
    ".s" op_show_stack

/-- A freshly constructed interpreter: empty stack, constructor
registry. -/
def mk_interpreter : WoflangInterpreter := ⟨[], default_ops⟩

/-- `WoflangInterpreter::pop_int` (woflang.cpp lines 282-291): pop, then
return the payload for an Integer, truncate toward zero for a Double,
and throw `"pop_int: value is not numeric"` for every other kind.  On an
empty stack the inner `pop()` throws before removing anything. -/
def pop_int (st : List WofValue) : List WofValue × Except WofErr Int :=
  match st with
  | [] => ([], Except.error ⟨"Stack underflow in pop()"⟩)
  | v :: rest =>
    (rest,
      match v.type with
      | WofType.Integer => Except.ok v.value.getInt
      | WofType.Double => Except.ok (truncQ v.value.getDouble)
      | _ => Except.error ⟨"pop_int: value is not numeric"⟩)

/-- `WoflangInterpreter::pop_double` (woflang.cpp lines 293-296): pop
and coerce with `as_numeric`; never fails on a non-empty stack. -/
def pop_double (st : List WofValue) : List WofValue × Except WofErr ℚ :=
  match st with
  | [] => ([], Except.error ⟨"Stack underflow in pop()"⟩)
  | v :: rest => (rest, Except.ok v.as_numeric)

/-- `WoflangInterpreter::pop_numeric` (woflang.cpp lines 298-301):
identical to `pop_double`. -/
def pop_numeric (st : List WofValue) : List WofValue × Except WofErr ℚ :=
  match st with
  | [] => ([], Except.error ⟨"Stack underflow in pop()"⟩)
  | v :: rest => (rest, Except.ok v.as_numeric)

/-- The character loop of `simple_tokenize` (woflang.cpp lines 143-180):
state is the remaining input, the in-string flag, and the accumulating
token.  Inside a quoted region the closing quote flushes the
accumulated text UNCONDITIONALLY (even when empty) and the quotes
themselves are never copied into the token; outside, whitespace flushes
a non-empty token and an opening quote flushes then enters string mode.
A pending token (quoted or not) is flushed at end of input. -/
def tokenize_loop : List Char → Bool → List Char → List String
  | [], _inString, current =>
    if current.isEmpty then [] else [String.mk current]
  | ch :: rest, true, current =>
    if ch == '"' then String.mk current :: tokenize_loop rest false []
    else tokenize_loop rest true (current ++ [ch])
  | ch :: rest, false, current =>
    if isSpaceC ch then
      if current.isEmpty then tokenize_loop rest false []
      else String.mk current :: tokenize_loop rest false []
    else if ch == '"' then
      if current.isEmpty then tokenize_loop rest true []
      else String.mk current :: tokenize_loop rest true []
    else tokenize_loop rest false (current ++ [ch])

/-- `simple_tokenize` (woflang.cpp lines 143-180). -/
def simple_tokenize (line : String) : List String :=
  tokenize_loop line.data false []

/-- `WoflangInterpreter::dispatch_token` (woflang.cpp lines 340-369), in
source order: quote-wrapped string literal, integer literal
(`std::stoll`, which raises `std::out_of_range` — message `"stoll"` —
beyond the int64 range), full floating literal (`std::stod`), registry
lookup, bare-symbol fallback. -/
def dispatch_token (interp : WoflangInterpreter) (token : String) :
    WoflangInterpreter × Option WofErr :=
  if !token.isEmpty && token.front == '"' && token.back == '"' &&
      decide (2 ≤ token.length) then
    (⟨WofValue.make_string ((token.drop 1).dropRight 1) :: interp.stack,
        interp.ops⟩,
      none)
  else if is_integer token then
    let iv := parse_ll token
    if decide (iv < int64Min) || decide (int64Max < iv) then
      (interp, some ⟨"stoll"⟩)
    else (⟨WofValue.make_int iv :: interp.stack, interp.ops⟩, none)
  else if is_number token then
    (⟨WofValue.make_double (parse_stod token) :: interp.stack, interp.ops⟩,
      none)
  else
    match interp.ops token with
    | some handler =>
      let r := handler interp.stack
      (⟨r.1, interp.ops⟩, r.2)
    | none =>
      (⟨WofValue.make_symbol token :: interp.stack, interp.ops⟩, none)

/-- The token loop of `exec_line`: dispatch left to right; a raised
error aborts the remaining tokens and is returned together with the
state the failing dispatch left behind. -/
def exec_tokens : WoflangInterpreter → List String →
    WoflangInterpreter × Option WofErr
  | interp, [] => (interp, none)
  | interp, t :: ts =>
    match dispatch_token interp t with
    | (interp', none) => exec_tokens interp' ts
    | (interp', some e) => (interp', some e)

/-- `WoflangInterpreter::exec_line` (woflang.cpp lines 371-376). -/
def exec_line (interp : WoflangInterpreter) (line : String) :
    WoflangInterpreter × Option WofErr :=
  exec_tokens interp (simple_tokenize line)

/-- The `dup` operation posited by claims C1/C2: duplicates the top of
the stack, modelled after `op_stack_dup` in
`plugins/util/stack_ops.cpp` (throws on an empty stack). -/
def op_dup : WofOp := fun st =>
  match st with
  | [] => ([], some ⟨"stack_dup: stack is empty"⟩)
  | v :: rest => (v :: v :: rest, none)

/-- A fresh interpreter with `dup` registered on top of the constructor
registry — the setting of claim C1's scenario. -/
def interp_with_dup : WoflangInterpreter :=
  ⟨[], register_op default_ops "dup" op_dup⟩

/-! ## Theorems settling the claims -/

/-- T-division by one is the identity. -/
theorem int_tdiv_one (n : Int) : Int.tdiv n 1 = n := by
  cases n with
  | ofNat m => simp [Int.tdiv]
  | negSucc m =>
    show -(Int.ofNat (Nat.succ m / 1)) = Int.negSucc m
    rw [Nat.div_one]
    exact rfl

/-- Truncating an integer-valued rational returns that integer. -/
theorem truncQ_intCast (n : Int) : truncQ (n : ℚ) = n := by
  simp [truncQ, Rat.num_intCast, Rat.den_intCast, int_tdiv_one]

/-- Claim C1 is violated by the code: `simple_tokenize` strips the
double quotes from a quoted region, so the token that reaches
`dispatch_token` is never quote-wrapped and falls through to the
bare-symbol branch.  On `exec_line("\"hello world\" dup")` (with `dup`
registered, empty stack) the resulting stack holds two SYMBOL values of
the quoted text — not the two String values the claim requires. -/
theorem claim_C1_quoted_region_becomes_symbols :
    (exec_line interp_with_dup "\"hello world\" dup").1.stack =
      [WofValue.make_symbol "hello world", WofValue.make_symbol "hello world"] ∧
    (exec_line interp_with_dup "\"hello world\" dup").2 = none ∧
    (exec_line interp_with_dup "\"hello world\" dup").1.stack ≠
      [WofValue.make_string "hello world", WofValue.make_string "hello world"] :=
  ⟨by decide, by decide, by decide⟩

/-- Claim C2: `dispatch_token` classifies in the fixed source order —
string literal, integer literal, floating literal, registry lookup,
symbol fallback.  In particular (first conjunct) a token `42` pushes
Integer 42 and never invokes a registered operation of that name; a
non-numeric registered token invokes its handler (second conjunct), and
an unregistered one becomes a Symbol (third conjunct). -/
theorem claim_C2_dispatch_precedence :
    (∀ (ops : String → Option WofOp) (st : List WofValue) (f : WofOp),
        ops "42" = some f →
        dispatch_token ⟨st, ops⟩ "42" =
          (⟨WofValue.make_int 42 :: st, ops⟩, none)) ∧
    (∀ (ops : String → Option WofOp) (st : List WofValue) (f : WofOp),
        ops "dup" = some f →
        dispatch_token ⟨st, ops⟩ "dup" = (⟨(f st).1, ops⟩, (f st).2)) ∧
    (∀ (ops : String → Option WofOp) (st : List WofValue),
        ops "dup" = none →
        dispatch_token ⟨st, ops⟩ "dup" =
          (⟨WofValue.make_symbol "dup" :: st, ops⟩, none)) := by
  refine ⟨fun ops st f _ => rfl, fun ops st f h => ?_, fun ops st h => ?_⟩
  · have hd : dispatch_token ⟨st, ops⟩ "dup" =
        (match ops "dup" with
          | some handler => (⟨(handler st).1, ops⟩, (handler st).2)
          | none => (⟨WofValue.make_symbol "dup" :: st, ops⟩, none)) := rfl
    rw [hd, h]
  · have hd : dispatch_token ⟨st, ops⟩ "dup" =
        (match ops "dup" with
          | some handler => (⟨(handler st).1, ops⟩, (handler st).2)
          | none => (⟨WofValue.make_symbol "dup" :: st, ops⟩, none)) := rfl
    rw [hd, h]

/-- Witness for C2: a registry holding both `"42"` and `"dup"`; the
token `42` pushes Integer 42 without running the handler, `dup` runs
its handler, and with an empty registry `dup` becomes a Symbol. -/
theorem claim_C2_witness :
    dispatch_token
        ⟨[], register_op (register_op empty_ops "dup" op_dup) "42" op_dup⟩
        "42" =
      (⟨[WofValue.make_int 42],
          register_op (register_op empty_ops "dup" op_dup) "42" op_dup⟩,
        none) ∧
    dispatch_token
        ⟨[WofValue.make_int 1],
          register_op (register_op empty_ops "dup" op_dup) "42" op_dup⟩
        "dup" =
      (⟨[WofValue.make_int 1, WofValue.make_int 1],
          register_op (register_op empty_ops "dup" op_dup) "42" op_dup⟩,
        none) ∧
    dispatch_token ⟨[], empty_ops⟩ "dup" =
      (⟨[WofValue.make_symbol "dup"], empty_ops⟩, none) :=
  ⟨claim_C2_dispatch_precedence.1
      (register_op (register_op empty_ops "dup" op_dup) "42" op_dup) [] op_dup
      rfl,
    claim_C2_dispatch_precedence.2.1
      (register_op (register_op empty_ops "dup" op_dup) "42" op_dup)
      [WofValue.make_int 1] op_dup rfl,
    claim_C2_dispatch_precedence.2.2 empty_ops [] rfl⟩

/-- Counterexample to claim C3 as stated: popping a String value with
`pop_int` raises `"pop_int: value is not numeric"` instead of coercing
it through `as_numeric`. -/
theorem claim_C3_counterexample :
    (pop_int [WofValue.make_string "wof"]).2 =
      Except.error ⟨"pop_int: value is not numeric"⟩ := rfl

/-- Claim C3 amended: on a non-empty stack `pop_int` always removes the
top value, and succeeds exactly for the numeric kinds — returning
`as_numeric` truncated toward zero — while every other kind raises the
type error. -/
theorem claim_C3_pop_int_numeric_only (v : WofValue) (rest : List WofValue) :
    (pop_int (v :: rest)).1 = rest ∧
    (v.is_numeric = true →
      (pop_int (v :: rest)).2 = Except.ok (truncQ v.as_numeric)) ∧
    (v.is_numeric = false →
      (pop_int (v :: rest)).2 =
        Except.error ⟨"pop_int: value is not numeric"⟩) := by
  refine ⟨rfl, ?_, ?_⟩
  · intro h
    have ht : v.type = WofType.Integer ∨ v.type = WofType.Double := by
      cases hv : v.type <;> simp [WofValue.is_numeric, hv] at h <;> simp
    rcases ht with ht | ht
    · simp [pop_int, ht, WofValue.as_numeric, truncQ_intCast]
    · simp [pop_int, ht, WofValue.as_numeric]
  · intro h
    cases hv : v.type <;> simp [WofValue.is_numeric, hv] at h <;>
      simp [pop_int, hv]

/-- Witness for C3 (amended): a Double 5/2 pops as 2 (truncation toward
zero), a Symbol raises the type error. -/
theorem claim_C3_witness :
    (pop_int [WofValue.make_double ((5 : ℚ) / 2)]).2 = Except.ok 2 ∧
    (pop_int [WofValue.make_symbol "wof"]).2 =
      Except.error ⟨"pop_int: value is not numeric"⟩ := by
  constructor
  · have h :=
      (claim_C3_pop_int_numeric_only (WofValue.make_double ((5 : ℚ) / 2))
        []).2.1 (by decide)
    rw [h]
    have hval : (WofValue.make_double ((5 : ℚ) / 2)).as_numeric =
        (5 : ℚ) / 2 := rfl
    rw [hval]
    have htr : truncQ ((5 : ℚ) / 2) = 2 := by
      have hnum : ((5 : ℚ) / 2).num = 5 := by norm_num
      have hden : ((5 : ℚ) / 2).den = 2 := by norm_num
      simp only [truncQ, hnum, hden]
      decide
    rw [htr]
  · exact
      (claim_C3_pop_int_numeric_only (WofValue.make_symbol "wof") []).2.2
        (by decide)

/-- Claim C4: from an empty stack, `exec_line("5 0 /")` raises
`"Division by zero"`; the `/` handler pops both operands before the
zero test and does not restore them, so the stack is empty after the
failure. -/
theorem claim_C4_div_by_zero_empties_stack :
    (exec_line mk_interpreter "5 0 /").1.stack = [] ∧
    (exec_line mk_interpreter "5 0 /").2 = some ⟨"Division by zero"⟩ :=
  ⟨by decide, by decide⟩

/-- Claim C5: from an empty stack, `exec_line("3 4 +")` leaves exactly
one value, the Double 7: the literals push Integers and the `+` built-in
promotes both operands to Double before adding. -/
theorem claim_C5_add_promotes_to_double :
    (exec_line mk_interpreter "3 4 +").1.stack = [WofValue.make_double 7] ∧
    (exec_line mk_interpreter "3 4 +").2 = none := by
  constructor
  · have h : (exec_line mk_interpreter "3 4 +").1.stack =
        [WofValue.make_double (((3 : Int) : ℚ) + ((4 : Int) : ℚ))] := rfl
    rw [h]
    norm_num [WofValue.make_double]
  · decide

/-- Claim C6: `as_numeric` is total (it is a plain function of the
value) and returns 0 for the Symbol, String, and Unknown kinds rather
than raising an error. -/
theorem claim_C6_as_numeric_total_zero (v : WofValue)
    (h : v.type = WofType.Symbol ∨ v.type = WofType.String ∨
      v.type = WofType.Unknown) :
    v.as_numeric = 0 := by
  rcases h with h | h | h <;> simp [WofValue.as_numeric, h]

/-- Witness for C6 at a concrete Symbol value. -/
theorem claim_C6_witness : (WofValue.make_symbol "wof").as_numeric = 0 :=
  claim_C6_as_numeric_total_zero (WofValue.make_symbol "wof") (Or.inl rfl)

/-- Claim C7: equality of two (well-formed) values requires equal type
tags, equal payloads, and equal unit tags; and cross-kind equality is
false — in particular Integer 2 and Double 2.0 are unequal. -/
theorem claim_C7_equality_kind_payload_unit :
    (∀ a b : WofValue, a.wf = true → b.wf = true →
      WofValue.eq a b = true →
      a.type = b.type ∧ a.value = b.value ∧ a.unit = b.unit) ∧
    WofValue.eq (WofValue.make_int 2) (WofValue.make_double 2) = false := by
  constructor
  · rintro ⟨ta, va, ua⟩ ⟨tb, vb, ub⟩ ha hb h
    simp only [WofValue.eq] at h
    split_ifs at h with h1 h2
    rw [ne_eq, not_not] at h1
    subst h1
    rw [Bool.not_eq_true', Bool.not_eq_false] at h2
    have hunit : ua = ub := by
      rcases ua with _ | ⟨un, us⟩ <;> rcases ub with _ | ⟨wn, ws⟩ <;>
        simp_all [unit_tags_match]
    refine ⟨rfl, ?_, hunit⟩
    cases ta <;> cases va <;> cases vb <;>
      simp_all [WofValue.wf, WofStorage.getInt, WofStorage.getDouble,
        WofStorage.getString]
  · decide

/-- Witness for C7: applying the soundness direction at Integer 5. -/
theorem claim_C7_witness :
    (WofValue.make_int 5).type = (WofValue.make_int 5).type ∧
    (WofValue.make_int 5).value = (WofValue.make_int 5).value ∧
    (WofValue.make_int 5).unit = (WofValue.make_int 5).unit :=
  claim_C7_equality_kind_payload_unit.1 (WofValue.make_int 5)
    (WofValue.make_int 5) (by decide) (by decide) (by decide)

/-- Helper for C8: if the prefix of the token list succeeds and the next
token's dispatch raises, the token loop returns that dispatch's exact
output — the remaining tokens are never reached and nothing is rolled
back. -/
theorem exec_tokens_append_abort (ts1 : List String) :
    ∀ (interp s1 s2 : WoflangInterpreter) (t : String) (ts2 : List String)
      (e : WofErr),
      exec_tokens interp ts1 = (s1, none) →
      dispatch_token s1 t = (s2, some e) →
      exec_tokens interp (ts1 ++ t :: ts2) = (s2, some e) := by
  induction ts1 with
  | nil =>
    intro interp s1 s2 t ts2 e hpre hfail
    have hs : interp = s1 := by
      simp [exec_tokens] at hpre
      exact hpre
    subst hs
    simp [exec_tokens, hfail]
  | cons a ts ih =>
    intro interp s1 s2 t ts2 e hpre hfail
    rcases hda : dispatch_token interp a with ⟨i', err⟩
    cases err with
    | none =>
      have hpre' : exec_tokens i' ts = (s1, none) := by
        simp [exec_tokens, hda] at hpre
        exact hpre
      simpa [exec_tokens, hda] using ih i' s1 s2 t ts2 e hpre' hfail
    | some e' =>
      exfalso
      simp [exec_tokens, hda] at hpre

/-- Claim C8: `exec_line` dispatches tokens left to right without
catching: when a token's dispatch raises, the later tokens of the line
are not dispatched, the error propagates, and the returned state is
exactly the state the successful prefix plus the failing dispatch left
behind (no rollback).  (Per C4, the failing token's own partial stack
effects persist as well.) -/
theorem claim_C8_line_abort (interp s1 s2 : WoflangInterpreter)
    (line : String) (ts1 : List String) (t : String) (ts2 : List String)
    (e : WofErr)
    (htok : simple_tokenize line = ts1 ++ t :: ts2)
    (hpre : exec_tokens interp ts1 = (s1, none))
    (hfail : dispatch_token s1 t = (s2, some e)) :
    exec_line interp line = (s2, some e) := by
  unfold exec_line
  rw [htok]
  exact exec_tokens_append_abort ts1 interp s1 s2 t ts2 e hpre hfail

/-- Witness for C8: on `"5 0 / 9"` the division fails after `5` and `0`
completed; the trailing `9` is never pushed and the result is the
failing dispatch's output. -/
theorem claim_C8_witness :
    exec_line mk_interpreter "5 0 / 9" =
      (⟨[], default_ops⟩, some ⟨"Division by zero"⟩) :=
  claim_C8_line_abort mk_interpreter
    ⟨[WofValue.make_int 0, WofValue.make_int 5], default_ops⟩
    ⟨[], default_ops⟩ "5 0 / 9" ["5", "0"] "/" ["9"] ⟨"Division by zero"⟩
    (by decide) rfl rfl

/-- Claim C9: when either operand of the `+` built-in is non-numeric,
`+` does not fail: it pops both operands and pushes the String
concatenation of their display strings, second-popped first. -/
theorem claim_C9_add_concatenates (a b : WofValue) (rest : List WofValue)
    (h : (a.is_numeric && b.is_numeric) = false) :
    op_add (b :: a :: rest) =
      (WofValue.make_string (a.to_string ++ b.to_string) :: rest, none) := by
  simp [op_add, h]

/-- Witness for C9: Symbol `wof` plus Integer 5 concatenates to the
String `wof5`. -/
theorem claim_C9_witness :
    op_add [WofValue.make_int 5, WofValue.make_symbol "wof"] =
      ([WofValue.make_string "wof5"], none) := by
  have h := claim_C9_add_concatenates (WofValue.make_symbol "wof")
    (WofValue.make_int 5) [] (by decide)
  rw [h]
  decide

/-- Claim C10: the value type's sixth kind `Bool` (absent from the
spec's data model) is non-numeric, coerces to 0 regardless of the
stored boolean, and displays as `"<invalid>"` — each switch falls
through past the missing `Bool` case. -/
theorem claim_C10_bool_kind (v : WofValue) (h : v.type = WofType.Bool) :
    v.is_numeric = false ∧ v.as_numeric = 0 ∧ v.to_string = "<invalid>" := by
  refine ⟨?_, ?_, ?_⟩ <;>
    simp [WofValue.is_numeric, WofValue.as_numeric, WofValue.to_string, h]

/-- Witness for C10 at a concrete Bool value. -/
theorem claim_C10_witness :
    (⟨WofType.Bool, WofStorage.ofBool true, none⟩ : WofValue).is_numeric =
        false ∧
    (⟨WofType.Bool, WofStorage.ofBool true, none⟩ : WofValue).as_numeric = 0 ∧
    (⟨WofType.Bool, WofStorage.ofBool true, none⟩ : WofValue).to_string =
      "<invalid>" :=
  claim_C10_bool_kind ⟨WofType.Bool, WofStorage.ofBool true, none⟩ rfl

end Woflang
